import Mathlib

/-!
A shallow embedding of `src/cli/hydrate.py` (the overlay composition and
cluster-selection engine), together with proofs settling the specification
claims about it.

Modelling conventions:
* A filesystem path is its list of components (`Path`), a file tree (`FS`) is
  an association list from path to file content; directories are implicit
  (a directory exists when some file lives under it).
* Python dicts are association lists with `dinsert` shadowing earlier entries
  for the same key, so lookups see the most recent write.
* The external Jinja engine (out of scope per the spec, used only through
  `Environment.get_template` / `Template.render`) is a parameter
  `Engine : String → Except JinjaErr String` taking the template source text.
* The external build tool (`kustomize`) is an opaque subprocess described by
  whether its executable resolves on the search path and its exit code.
* Exceptions are explicit result values: `RuntimeWarning` / `RuntimeError` /
  other uncaught exceptions become constructors of `PyExc`.
-/

namespace Hydrate

/-- A filesystem path, as its list of components. -/
abbrev Path : Type := List String

/-- A Python dict with string keys and values (one cluster config row),
as an association list. -/
abbrev Dict : Type := List (String × String)

/-- A file tree: file path to file content, as an association list. -/
abbrev FS : Type := List (Path × String)

/-- Python dict lookup `d[k]` / `d.get(k)`: the first entry for `k`. -/
def dlookup {α β : Type} [DecidableEq α] (d : List (α × β)) (k : α) : Option β :=
  (d.find? (fun e => decide (e.1 = k))).map (fun e => e.2)

/-- Python dict write `d[k] = v`: the new pair shadows any earlier entry
for `k` (last write wins on lookup). -/
def dinsert {α β : Type} [DecidableEq α] (d : List (α × β)) (k : α) (v : β) : List (α × β) :=
  (k, v) :: d.filter (fun e => ! decide (e.1 = k))

/-- File deletion (`Path.unlink`): remove the entry for `k`. -/
def ferase {α β : Type} [DecidableEq α] (d : List (α × β)) (k : α) : List (α × β) :=
  d.filter (fun e => ! decide (e.1 = k))

/-- The keys of an association list. -/
def keys {α β : Type} (d : List (α × β)) : List α := d.map Prod.fst

/-- Whether the association list holds an entry for `k`. -/
def containsKey {α β : Type} [DecidableEq α] (d : List (α × β)) (k : α) : Bool :=
  d.any (fun e => decide (e.1 = k))

/-- `p.exists()` for our file trees: the path is a file or an ancestor of one
(empty directories are not represented). -/
def pathExists (fs : FS) (p : Path) : Bool :=
  fs.any (fun e => p.isPrefixOf e.1)

/-- The files enumerated by `dir.walk()`: every entry whose parent directory
lies under `dir` (including `dir` itself). -/
def filesUnder (fs : FS) (dir : Path) : FS :=
  fs.filter (fun e => dir.isPrefixOf e.1.dropLast)

/-- Python `root.relative_to(base)`: strip the prefix, `none` for the
`ValueError` case where `base` is not an ancestor of (or equal to) `root`. -/
def relativeTo (p base : Path) : Option Path :=
  if base.isPrefixOf p then some (p.drop base.length) else none

/- ---------------------------------------------------------------------
Python string methods (`str.strip`, `str.split`, `str.lower`), defined by
structural recursion over the character list so that every use of the model
evaluates inside the kernel.
--------------------------------------------------------------------- -/

/-- The whitespace characters `str.strip()` removes. -/
def isPySpace (c : Char) : Bool :=
  decide (c = ' ') || decide (c = Char.ofNat 9) || decide (c = Char.ofNat 10) ||
  decide (c = Char.ofNat 13) || decide (c = Char.ofNat 11) || decide (c = Char.ofNat 12)

/-- Python `s.strip()`: drop leading and trailing whitespace. -/
def pyStrip (s : String) : String :=
  String.mk (((s.toList.dropWhile isPySpace).reverse.dropWhile isPySpace).reverse)

/-- Split a character list at every occurrence of `sep`, keeping empty
pieces (Python `str.split(sep)` semantics: the empty string yields one empty
piece). -/
def splitChars (sep : Char) : List Char → List (List Char)
  | [] => [[]]
  | c :: rest =>
    let r := splitChars sep rest
    if c = sep then [] :: r
    else
      match r with
      | [] => [[c]]
      | h :: t => (c :: h) :: t

/-- Python `s.split(sep)` for a one-character separator. -/
def pySplit (s : String) (sep : Char) : List String :=
  (splitChars sep s.toList).map String.mk

/-- Python `str.lower()` on one ASCII character. -/
def charLower (c : Char) : Char :=
  if 'A' ≤ c ∧ c ≤ 'Z' then Char.ofNat (c.toNat + 32) else c

/-- Python `s.lower()` (ASCII case folding suffices for the model). -/
def pyLower (s : String) : String :=
  String.mk (s.toList.map charLower)

/-- Equality test for `Except` values, so that concrete runs of the parser
can be evaluated by `decide`. -/
instance {e a : Type} [DecidableEq e] [DecidableEq a] : DecidableEq (Except e a) := fun x y =>
  match x, y with
  | Except.ok u, Except.ok v =>
    if h : u = v then isTrue (by rw [h]) else isFalse (fun hc => h (Except.ok.inj hc))
  | Except.error u, Except.error v =>
    if h : u = v then isTrue (by rw [h]) else isFalse (fun hc => h (Except.error.inj hc))
  | Except.ok _, Except.error _ => isFalse (fun hc => Except.noConfusion hc)
  | Except.error _, Except.ok _ => isFalse (fun hc => Except.noConfusion hc)

/- ---------------------------------------------------------------------
Jinja: suffix/stem arithmetic (`pathlib.PurePath.suffix` / `.stem`),
`is_jinja_template`, `setup_jinja`, and `template_file`.
--------------------------------------------------------------------- -/

/-- `pathlib`'s suffix position: the index `i` of the last dot of the file
name, valid only when `0 < i < len(name) - 1` (hidden files and trailing
dots have no suffix). -/
def pyDotIdx (name : String) : Option Nat :=
  match name.toList.reverse.findIdx? (fun c => decide (c = '.')) with
  | none => none
  | some j =>
    let i := name.toList.length - 1 - j
    if 0 < i ∧ i < name.toList.length - 1 then some i else none

/-- `PurePath(name).suffix`. -/
def pySuffix (name : String) : String :=
  match pyDotIdx name with
  | none => ""
  | some i => String.mk (name.toList.drop i)

/-- `PurePath(name).stem`: the file name minus its suffix. -/
def pyStem (name : String) : String :=
  match pyDotIdx name with
  | none => name
  | some i => String.mk (name.toList.take i)

/-- `is_jinja_template` (hydrate.py line 126): `dest_file.suffix == '.j2'`. -/
def is_jinja_template (name : String) : Bool :=
  decide (pySuffix name = ".j2")

/-- Outcome of the external Jinja engine on one template source text.
`loadErr` stands for a `jinja2.TemplateError` raised while
`Environment.get_template` locates/parses the template, `renderErr` for one
raised by `Template.render` (the cluster config is already applied by the
caller via `Engine`'s instantiation). -/
inductive JinjaErr : Type
  | loadErr
  | renderErr
deriving DecidableEq

/-- The Jinja engine for a fixed cluster config: template source text to
rendered text, or a load/render error. -/
abbrev Engine : Type := String → Except JinjaErr String

/-- The `RuntimeWarning` raised by `template_file`, keeping which of its two
`except jinja2.exceptions.TemplateError` arms fired. -/
inductive TplErr : Type
  | getError
  | renderError
deriving DecidableEq

/-- Result of `template_file`: the file tree afterwards and the raised
`RuntimeWarning`, if any. -/
structure TplResult : Type where
  fs : FS
  err : Option TplErr
deriving DecidableEq

/-- `template_file` (hydrate.py lines 148-181), on the tree rooted at the
Jinja loader path (in this program the loader path is always the workspace
directory, and `tpl` is the workspace-relative path of the template):
1. `get_template` locates and parses the template; a `TemplateError` there is
   re-raised as `RuntimeWarning` before any output file exists;
2. the output file at the same path minus the `.j2` suffix is opened with
   mode 'w' (created empty / truncated) BEFORE rendering;
3. `render` failure is re-raised as `RuntimeWarning`, leaving the empty
   output file behind and skipping the `unlink` of the template;
4. on success the rendered text is written and, when `delete_template`,
   the original template file is removed. -/
def template_file (engine : Engine) (fs : FS) (tpl : Path) (delete_template : Bool) :
    TplResult :=
  let name := tpl.getLastD ""
  let outPath := tpl.dropLast ++ [pyStem name]
  match dlookup fs tpl with
  | none => ⟨fs, some TplErr.getError⟩
  | some content =>
    match engine content with
    | Except.error JinjaErr.loadErr => ⟨fs, some TplErr.getError⟩
    | Except.error JinjaErr.renderErr => ⟨dinsert fs outPath "", some TplErr.renderError⟩
    | Except.ok text =>
      let fs1 := dinsert fs outPath text
      ⟨if delete_template then ferase fs1 tpl else fs1, none⟩

/- ---------------------------------------------------------------------
`copy_and_template` (hydrate.py lines 184-228).
--------------------------------------------------------------------- -/

/-- Error propagating out of the copy loop: the uncaught `ValueError` when a
walked root is relative to neither `base_dir.parent` nor
`overlay_dir.parent`, or the `RuntimeWarning` escaping `template_file`. -/
inductive MergeErr : Type
  | valueError
  | tplWarn (e : TplErr)
deriving DecidableEq

/-- Result of the copy loop: destination tree so far and the exception that
stopped it, if any. -/
structure MergeResult : Type where
  fs : FS
  err : Option MergeErr
deriving DecidableEq

/-- Destination of one walked root (hydrate.py lines 209-212): try
`root.relative_to(base_dir.parent)` first — for every root, also roots of the
overlay walk — and fall back to `root.relative_to(overlay_dir.parent)`. -/
def destFileRel (baseParent overlayParent root : Path) : Option Path :=
  match relativeTo root baseParent with
  | some r => some r
  | none => relativeTo root overlayParent

/-- The body of `copy_and_template`'s loop over walked files: copy each file
to `dest_dir` under its root's computed relative path, and render (then
delete) any `.j2` template encountered, stopping when an exception escapes. -/
def copyFiles (engine : Engine) (baseParent overlayParent : Path) (template : Bool) :
    FS → List (Path × String) → MergeResult
  | dest, [] => ⟨dest, none⟩
  | dest, (p, c) :: rest =>
    match destFileRel baseParent overlayParent p.dropLast with
    | none => ⟨dest, some MergeErr.valueError⟩
    | some relDir =>
      let name := p.getLastD ""
      let destRel := relDir ++ [name]
      let dest1 := dinsert dest destRel c
      if template && is_jinja_template name then
        let r := template_file engine dest1 destRel true
        match r.err with
        | some e => ⟨r.fs, some (MergeErr.tplWarn e)⟩
        | none => copyFiles engine baseParent overlayParent template r.fs rest
      else copyFiles engine baseParent overlayParent template dest1 rest

/-- `copy_and_template` (hydrate.py lines 184-228): walk `base_dir` fully,
then `overlay_dir` fully, copying every file into the destination tree
(association keyed by destination-relative path) and templating `.j2` files
as they are copied. -/
def copy_and_template (engine : Engine) (base_dir overlay_dir : Path)
    (src dest : FS) (template : Bool) : MergeResult :=
  copyFiles engine base_dir.dropLast overlay_dir.dropLast template dest
    (filesUnder src base_dir ++ filesUnder src overlay_dir)

/-- The destination path the copy loop computes for a walked file at
absolute path `p`: its parent's path relative to `base_dir.parent`
(fallback `overlay_dir.parent`), plus the file name. -/
def destOf (bp op : Path) (p : Path) : Option Path :=
  (destFileRel bp op p.dropLast).map (fun relDir => relDir ++ [p.getLastD ""])

/-- The content of the last file in the walked list whose computed
destination is `q`, if any: the value the merge is expected to leave at
`q` under its walk order (base files first, then overlay files). -/
def lastCopy (bp op : Path) : List (Path × String) → Path → Option String
  | [], _ => none
  | (p, c) :: rest, q =>
    match lastCopy bp op rest q with
    | some x => some x
    | none => if destOf bp op p = some q then some c else none

/- ---------------------------------------------------------------------
`process_sot_file` (hydrate.py lines 231-251) and `check_config` (350-375).
--------------------------------------------------------------------- -/

/-- The `RuntimeError` class used for every failed check. -/
inductive PyErr : Type
  | runtimeError
deriving DecidableEq

/-- The parsed source of truth: cluster name to its config row. -/
abbrev ConfigDict : Type := List (String × Dict)

/-- `row = {k.strip(): v.strip() for k, v in row.items() if row}`
(hydrate.py line 244). The guard `if row` is a per-item condition on the
whole row's truthiness, so it never filters anything: for an empty row the
comprehension is empty anyway, and for a non-empty row the guard is true for
every item. -/
def stripRow (row : Dict) : Dict :=
  if row = [] then []
  else row.foldl (fun d kv => dinsert d (pyStrip kv.1) (pyStrip kv.2)) []

/-- The identity of a row: `row['cluster_name']` after stripping. -/
def identOf (row : Dict) : Option String :=
  dlookup (stripRow row) "cluster_name"

/-- The loop of `process_sot_file`: `data[row['cluster_name']] = row`,
raising `RuntimeError` (from the `KeyError`) when the stripped row has no
`cluster_name` key. -/
def sotLoop (data : ConfigDict) : List Dict → Except PyErr ConfigDict
  | [] => Except.ok data
  | row :: rest =>
    match dlookup (stripRow row) "cluster_name" with
    | none => Except.error PyErr.runtimeError
    | some n => sotLoop (dinsert data n (stripRow row)) rest

/-- `process_sot_file` (hydrate.py lines 231-251) on the row dicts produced
by `csv.DictReader`. -/
def process_sot_file (rows : List Dict) : Except PyErr ConfigDict :=
  sotLoop [] rows

/-- The stripped form of the last row of the list carrying the given
identity, if any: the record `process_sot_file` is expected to return for
that identity under last-write-wins. -/
def lastMatch : List Dict → String → Option Dict
  | [], _ => none
  | row :: rest, n =>
    match lastMatch rest n with
    | some r => some r
    | none => if identOf row = some n then some (stripRow row) else none

/-- Which check of `check_config` raised its `RuntimeError`. -/
inductive CheckErr : Type
  | noConfig
  | missingGroup
  | emptyGroup
deriving DecidableEq

/-- Result of `check_config`: the raised error, if any, and whether the
missing-tags message was logged (the tags check only logs, never raises). -/
structure CheckResult : Type where
  err : Option CheckErr
  loggedMissingTags : Bool
deriving DecidableEq

/-- `check_config` (hydrate.py lines 350-375): raise `RuntimeError` when the
config is falsy, when `cluster_group` is absent (`KeyError`), or when it is
blank (`AssertionError`); a missing `cluster_tags` column only produces a
log line. -/
def check_config (cfg : Dict) : CheckResult :=
  if cfg = [] then ⟨some CheckErr.noConfig, false⟩
  else
    match dlookup cfg "cluster_group" with
    | none => ⟨some CheckErr.missingGroup, false⟩
    | some g =>
      if pyStrip g = "" then ⟨some CheckErr.emptyGroup, false⟩
      else ⟨none, (dlookup cfg "cluster_tags").isNone⟩

/- ---------------------------------------------------------------------
Selection (hydrate.py lines 517-535), `run_kustomize` (254-302),
`process_cluster` (305-347) and the `main` loops (477-550).
--------------------------------------------------------------------- -/

/-- How the selection code (lines 517-535) left one cluster: proceed to
processing, or `continue` for one of the three skip reasons, or crash with
the uncaught `KeyError` of `cfg['cluster_group']` (unreachable after
`check_config` passed). -/
inductive SelOutcome : Type
  | selected
  | skippedNoTags
  | skippedNoMatch
  | skippedGroupMismatch
  | crashKeyError
deriving DecidableEq

/-- The group filter (hydrate.py lines 531-535): case-insensitive,
whitespace-trimmed equality with `cfg['cluster_group']`. `cg = none` models
an absent (or falsy) `--cluster-group` argument. -/
def selectGroup (cg : Option String) (cfg : Dict) : SelOutcome :=
  match cg with
  | none => SelOutcome.selected
  | some g =>
    match dlookup cfg "cluster_group" with
    | none => SelOutcome.crashKeyError
    | some cgrp =>
      if pyLower (pyStrip g) = pyLower (pyStrip cgrp) then SelOutcome.selected
      else SelOutcome.skippedGroupMismatch

/-- The selection step (hydrate.py lines 517-535): when tags were supplied
(`ct` non-empty; a falsy `args.cluster_tag` is `[]`), a record without a
`cluster_tags` field is skipped with a warning; otherwise the record's tags
field is split on commas, each tag trimmed, and the record passes only if
that set intersects the caller's tags (exact string equality); then the
group filter runs. -/
def selectStep (ct : List String) (cg : Option String) (cfg : Dict) : SelOutcome :=
  if ct = [] then selectGroup cg cfg
  else
    match dlookup cfg "cluster_tags" with
    | none => SelOutcome.skippedNoTags
    | some s =>
      let config_tags := (pySplit s ',').map pyStrip
      if config_tags.any (fun t => ct.contains t) then selectGroup cg cfg
      else SelOutcome.skippedNoMatch

/-- Exception classes distinguished by `main`'s handlers. -/
inductive PyExc : Type
  | runtimeWarning
  | runtimeError
  | other
deriving DecidableEq

/-- The external build tool: whether `shutil.which` resolves its executable,
and the exit code `Popen` reports (negative for a signal). -/
structure KustomizeEnv : Type where
  which : Option String
  returncode : Int
deriving DecidableEq

/-- Result of `run_kustomize`: the raised exception, if any, and whether an
error-level line was logged. -/
structure KustomizeOutcome : Type where
  raised : Option PyExc
  loggedError : Bool
deriving DecidableEq

/-- `run_kustomize` (hydrate.py lines 254-302): raise `RuntimeError` when the
executable is not on the search path; otherwise wait for the subprocess and
only LOG its status — exit code 0 at info level, a positive exit code as an
error — returning normally in both cases. -/
def run_kustomize (kenv : KustomizeEnv) : KustomizeOutcome :=
  match kenv.which with
  | none => ⟨some PyExc.runtimeError, true⟩
  | some _ => ⟨none, decide (0 < kenv.returncode)⟩

/-- Everything `process_cluster` reads besides the cluster config and the
workspace: the on-disk source trees, the base and overlay roots from the
arguments, the Jinja engine (a function of the cluster config), and the
build tool's behaviour. -/
structure ProcEnv : Type where
  src : FS
  baseDir : Path
  overlayRoot : Path
  engine : Dict → Engine
  kenv : KustomizeEnv

/-- Result of `process_cluster`: workspace contents afterwards, the raised
exception, if any, and whether `run_kustomize` logged a build error. -/
structure ProcOutcome : Type where
  temp : FS
  raised : Option PyExc
  kustomizeLoggedError : Bool

/-- `process_cluster` (hydrate.py lines 305-347):
1. a missing `overlays/<group>` raises `RuntimeWarning` (recoverable);
2. `copy_and_template` merges base and overlay into the workspace — the
   `RuntimeWarning` escaping `template_file` propagates out here, as does
   the uncaught `ValueError`;
3. `run_kustomize` runs in the merged overlay subtree (its `RuntimeError`
   propagates; the output-directory bookkeeping is outside the workspace and
   not modelled). A missing `cluster_group` key would be an uncaught
   `KeyError`, unreachable after `check_config`. -/
def process_cluster (penv : ProcEnv) (cfg : Dict) (temp : FS) : ProcOutcome :=
  match dlookup cfg "cluster_group" with
  | none => ⟨temp, some PyExc.other, false⟩
  | some group =>
    let clusOverlay := penv.overlayRoot ++ [group]
    if pathExists penv.src clusOverlay then
      let m := copy_and_template (penv.engine cfg) penv.baseDir clusOverlay penv.src temp true
      match m.err with
      | some (MergeErr.tplWarn _) => ⟨m.fs, some PyExc.runtimeWarning, false⟩
      | some MergeErr.valueError => ⟨m.fs, some PyExc.other, false⟩
      | none =>
        let k := run_kustomize penv.kenv
        ⟨m.fs, k.raised, k.loggedError⟩
    else ⟨temp, some PyExc.runtimeWarning, false⟩

/-- How the process terminated: normal exit, `sys.exit(1)`, or an uncaught
exception (also a non-zero exit, via the interpreter's traceback path). -/
inductive ExitStatus : Type
  | normal
  | exit1
  | crashed
deriving DecidableEq

/-- Observable outcome of a run: exit status, whether the ephemeral workspace
directory still exists after the process exits, its contents then, and the
clusters processed to completion. -/
structure MainResult : Type where
  status : ExitStatus
  tempAlive : Bool
  temp : FS
  processed : List String
deriving DecidableEq

/-- The multi-cluster loop of `main` (hydrate.py lines 509-550). Per cluster:
`check_config` failure skips (`continue`, before the try/finally); selection
skips `continue`; then `process_cluster` under
`try/except RuntimeError: sys.exit(1) / except RuntimeWarning: continue /
finally: cleanup-and-recreate`. The `finally` always destroys the workspace
and immediately recreates a fresh empty one, so on the `sys.exit(1)` path —
which skips the final cleanup at line 550 — an empty workspace directory is
left on disk. Only falling off the end of the loop reaches line 550, where
the workspace is destroyed for good. -/
def batchLoop (penv : ProcEnv) (ct : List String) (cg : Option String) :
    FS → List String → List (String × Dict) → MainResult
  | _, acc, [] => ⟨ExitStatus.normal, false, [], acc.reverse⟩
  | st, acc, (c, cfg) :: rest =>
    if (check_config cfg).err.isSome then batchLoop penv ct cg st acc rest
    else
      match selectStep ct cg cfg with
      | SelOutcome.selected =>
        let p := process_cluster penv cfg st
        match p.raised with
        | some PyExc.runtimeError => ⟨ExitStatus.exit1, true, [], acc.reverse⟩
        | some PyExc.other => ⟨ExitStatus.crashed, true, [], acc.reverse⟩
        | some PyExc.runtimeWarning => batchLoop penv ct cg [] acc rest
        | none => batchLoop penv ct cg [] (c :: acc) rest
      | SelOutcome.crashKeyError => ⟨ExitStatus.crashed, true, st, acc.reverse⟩
      | _ => batchLoop penv ct cg st acc rest

/-- `main` in multi-cluster mode: the workspace was created fresh (line 494)
and the loop starts with it empty. -/
def mainMulti (penv : ProcEnv) (ct : List String) (cg : Option String)
    (config_data : ConfigDict) : MainResult :=
  batchLoop penv ct cg [] [] config_data

/-- `main` in single-cluster mode (hydrate.py lines 500-507): look the name
up with `.get` (a miss gives a falsy config and `check_config` raises), then
`check_config` and `process_cluster` under
`except (RuntimeError, RuntimeWarning): sys.exit(1)` — with NO cleanup on
that path, and line 550's cleanup skipped by the `SystemExit`, the workspace
directory and its contents survive the process. An exception of any other
class also propagates past line 550. Only the success path destroys the
workspace. -/
def mainSingle (penv : ProcEnv) (config_data : ConfigDict) (name : String) : MainResult :=
  match dlookup config_data name with
  | none => ⟨ExitStatus.exit1, true, [], []⟩
  | some cfg =>
    if (check_config cfg).err.isSome then ⟨ExitStatus.exit1, true, [], []⟩
    else
      let p := process_cluster penv cfg []
      match p.raised with
      | some PyExc.runtimeWarning => ⟨ExitStatus.exit1, true, p.temp, []⟩
      | some PyExc.runtimeError => ⟨ExitStatus.exit1, true, p.temp, []⟩
      | some PyExc.other => ⟨ExitStatus.crashed, true, p.temp, []⟩
      | none => ⟨ExitStatus.normal, false, [], [name]⟩

/- ---------------------------------------------------------------------
`setup_jinja` (hydrate.py lines 135-145) and the escaping behaviour of the
environment it configures.
--------------------------------------------------------------------- -/

/-- The configuration `setup_jinja` passes to `jinja2.Environment`: the
loader's search path and the `autoescape` flag. -/
structure JinjaEnvCfg : Type where
  loaderPath : Path
  autoescape : Bool
deriving DecidableEq

/-- `setup_jinja` (hydrate.py lines 135-145): builds the environment with
`autoescape=True` — unconditional HTML-style auto-escaping for every
template, regardless of its name. -/
def setup_jinja (template_path : Path) : JinjaEnvCfg :=
  ⟨template_path, true⟩

/-- Modelled from the spec: HTML-style auto-escaping of one character of a
substituted value, as performed by the external templating engine when the
environment's `autoescape` flag is on (the engine itself is an external
collaborator; the spec describes its escaping of special characters as the
corruption hazard for plain-text manifests). -/
def htmlEscapeChar (c : Char) : String :=
  if c = '&' then "&amp;"
  else if c = '<' then "&lt;"
  else if c = '>' then "&gt;"
  else if c = '"' then "&#34;"
  else if c = Char.ofNat 39 then "&#39;"
  else String.singleton c

/-- Modelled from the spec: HTML-style auto-escaping of a substituted value. -/
def htmlEscape (s : String) : String :=
  s.toList.foldl (fun acc c => acc ++ htmlEscapeChar c) ""

/-- Modelled from the spec: how a substituted attribute value reaches the
rendered output under the environment configured by `setup_jinja` — escaped
when `autoescape` is on, verbatim when it is off. -/
def renderValue (env : JinjaEnvCfg) (v : String) : String :=
  if env.autoescape then htmlEscape v else v

/- ---------------------------------------------------------------------
Concrete fixtures used by the claim proofs below.
--------------------------------------------------------------------- -/

/-- An engine whose render step always fails (never consulted on inputs
without `.j2` files). -/
def engineFail : Engine := fun _ => Except.error JinjaErr.renderErr

/-- A config row for cluster `c1` in group `g1`. -/
def cfgG1 : Dict := [("cluster_name", "c1"), ("cluster_group", "g1")]

/-- A config row for cluster `c2` in group `g2`. -/
def cfgG2 : Dict := [("cluster_name", "c2"), ("cluster_group", "g2")]

/-- A config row with tags `a` and `b`. -/
def cfgTags : Dict := [("cluster_name", "x"), ("cluster_group", "g"), ("cluster_tags", "a, b")]

/-- A config row without a tags field. -/
def cfgNoTags : Dict := [("cluster_name", "y"), ("cluster_group", "g")]

/-- Source trees whose `g1` overlay holds a template that fails to render,
while `g2` holds only a plain file; the build tool resolves and exits 0. -/
def penvC2 : ProcEnv :=
  ⟨[(["b", "base.yaml"], "B"), (["o", "g1", "t.j2"], "T"), (["o", "g2", "k.yaml"], "K")],
   ["b"], ["o"], fun _ => engineFail, ⟨some "/usr/bin/kustomize", 0⟩⟩

/-- Source trees with a plain `g1` overlay but a build tool that is absent
from the search path. -/
def penvNoTool : ProcEnv :=
  ⟨[(["b", "base.yaml"], "B"), (["o", "g1", "k.yaml"], "K")],
   ["b"], ["o"], fun _ => engineFail, ⟨none, 0⟩⟩

/-- Source trees with no overlay for group `g1` at all. -/
def penvNoOverlay : ProcEnv :=
  ⟨[(["b", "base.yaml"], "B")], ["b"], ["o"], fun _ => engineFail,
   ⟨some "/usr/bin/kustomize", 0⟩⟩

/-- Source trees with a plain `g1` overlay and a build tool exiting 2. -/
def penvRc2 : ProcEnv :=
  ⟨[(["b", "base.yaml"], "B"), (["o", "g1", "k.yaml"], "K")],
   ["b"], ["o"], fun _ => engineFail, ⟨some "/usr/bin/kustomize", 2⟩⟩

/-- Two rows with the same identity `a` (after stripping) and differing
other values. -/
def rowsC4 : List Dict :=
  [[(" cluster_name ", " a "), ("x", "1")], [("cluster_name", "a"), ("x", "2")]]

/-- A base tree and an overlay tree holding `config.yaml` at the same
tree-relative path with different contents. -/
def mergeCexSrc : FS :=
  [(["base", "config.yaml"], "X"), (["overlays", "g", "config.yaml"], "Y")]

/-- The merge of `mergeCexSrc` into an empty destination. -/
def mergeCex : MergeResult :=
  copy_and_template engineFail ["base"] ["overlays", "g"] mergeCexSrc [] true

/- ---------------------------------------------------------------------
Helper lemmas about the dictionary operations and the suffix arithmetic.
--------------------------------------------------------------------- -/

/-- Looking up the key just written returns the written value. -/
theorem dlookup_dinsert_self {α β : Type} [DecidableEq α] (d : List (α × β)) (k : α) (v : β) :
    dlookup (dinsert d k v) k = some v := by
  simp [dlookup, dinsert, List.find?_cons]

/-- Filtering out the entries for another key does not change a lookup. -/
theorem find?_filter_out {α β : Type} [DecidableEq α] (d : List (α × β)) (k n : α)
    (h : n ≠ k) :
    List.find? (fun e => decide (e.1 = n)) (d.filter (fun e => ! decide (e.1 = k)))
      = List.find? (fun e => decide (e.1 = n)) d := by
  induction d with
  | nil => rfl
  | cons e d ih =>
    by_cases he : e.1 = k
    · have h1 : (e :: d).filter (fun x => ! decide (x.1 = k)) = d.filter (fun x => ! decide (x.1 = k)) := by
        simp [List.filter_cons, he]
      have h2 : decide (e.1 = n) = false := by simp [he, Ne.symm h]
      rw [h1, ih, List.find?_cons, h2]
    · have h1 : (e :: d).filter (fun x => ! decide (x.1 = k)) = e :: d.filter (fun x => ! decide (x.1 = k)) := by
        simp [List.filter_cons, he]
      rw [h1, List.find?_cons, List.find?_cons]
      cases hp : decide (e.1 = n) with
      | true => rfl
      | false => exact ih

/-- Writing one key leaves lookups of every other key unchanged. -/
theorem dlookup_dinsert_ne {α β : Type} [DecidableEq α] (d : List (α × β)) (k n : α) (v : β)
    (h : n ≠ k) : dlookup (dinsert d k v) n = dlookup d n := by
  unfold dlookup dinsert
  rw [List.find?_cons]
  have h2 : decide ((k, v).1 = n) = false := by simp [Ne.symm h]
  rw [h2, find?_filter_out d k n h]

/-- A dict write keeps the keys duplicate-free. -/
theorem keys_dinsert_nodup {α β : Type} [DecidableEq α] (d : List (α × β)) (k : α) (v : β)
    (h : (keys d).Nodup) : (keys (dinsert d k v)).Nodup := by
  unfold keys dinsert
  refine List.Nodup.cons ?_ ?_
  · intro hk
    rcases List.mem_map.mp hk with ⟨e, he, hfst⟩
    have := List.of_mem_filter he
    simp [hfst] at this
  · exact h.sublist ((List.filter_sublist _).map Prod.fst)

/-- Stripping the `.j2` suffix changes the file name. -/
theorem pyStem_ne_of_jinja (name : String) (h : is_jinja_template name = true) :
    pyStem name ≠ name := by
  have hs : pySuffix name = ".j2" := of_decide_eq_true h
  unfold pySuffix at hs
  unfold pyStem
  cases hidx : pyDotIdx name with
  | none =>
    rw [hidx] at hs
    have hs2 : ("" : String) = ".j2" := hs
    exact absurd hs2 (by decide)
  | some i =>
    rw [hidx] at hs
    intro heq
    have hs2 : String.mk (name.toList.drop i) = ".j2" := hs
    have heq2 : String.mk (name.toList.take i) = name := heq
    have hdrop : (name.toList.drop i).length = 3 := congrArg String.length hs2
    have htake : name.toList.take i = name.toList := congrArg String.toList heq2
    have hlen := congrArg List.length htake
    rw [List.length_take] at hlen
    have hle : name.toList.length ≤ i := by
      rw [← hlen]
      exact Nat.min_le_left i name.toList.length
    rw [List.length_drop] at hdrop
    omega

/-- The parse loop, run from any accumulator: every row carrying an
identity makes it succeed, lookups given by the last matching row with a
fallback into the accumulator, and key-uniqueness is preserved. -/
theorem sotLoop_spec (rows : List Dict) :
    ∀ (data : ConfigDict), (∀ r ∈ rows, (identOf r).isSome) →
    ∃ d, sotLoop data rows = Except.ok d
      ∧ (∀ n, dlookup d n = ((lastMatch rows n).elim (dlookup data n) some))
      ∧ ((keys data).Nodup → (keys d).Nodup) := by
  induction rows with
  | nil =>
    intro data _
    exact ⟨data, rfl, fun n => rfl, fun h => h⟩
  | cons row rest ih =>
    intro data hall
    have hrow : (identOf row).isSome := hall row (List.mem_cons_self row rest)
    rcases Option.isSome_iff_exists.mp hrow with ⟨nm, hnm⟩
    have hrest : ∀ r ∈ rest, (identOf r).isSome := fun r hr => hall r (List.mem_cons_of_mem row hr)
    rcases ih (dinsert data nm (stripRow row)) hrest with ⟨d, hok, hlook, hnodup⟩
    refine ⟨d, ?_, ?_, ?_⟩
    · show sotLoop data (row :: rest) = Except.ok d
      simp only [sotLoop]
      rw [show dlookup (stripRow row) "cluster_name" = some nm from hnm]
      exact hok
    · intro n
      rw [hlook n]
      cases hlast : lastMatch rest n with
      | some r =>
        rw [show lastMatch (row :: rest) n = some r by simp only [lastMatch, hlast]]
        rfl
      | none =>
        rw [
          show lastMatch (row :: rest) n
              = (if identOf row = some n then some (stripRow row) else none) by
            simp only [lastMatch, hlast]]
        by_cases hn : n = nm
        · subst hn
          rw [if_pos hnm]
          simp only [Option.elim]
          exact dlookup_dinsert_self data n (stripRow row)
        · have hni : ¬ identOf row = some n := by
            rw [hnm]
            intro hc
            exact hn (Option.some.inj hc).symm
          rw [if_neg hni]
          simp only [Option.elim]
          exact dlookup_dinsert_ne data nm n (stripRow row) hn
    · intro h
      exact hnodup (keys_dinsert_nodup data nm (stripRow row) h)

/-- When no walked file carries the template marker, the template flag is
irrelevant to the copy loop. -/
theorem copyFiles_no_jinja (engine : Engine) (bp op : Path) :
    ∀ (files : List (Path × String)) (dest : FS),
    (∀ e ∈ files, is_jinja_template (e.1.getLastD "") = false) →
    copyFiles engine bp op true dest files = copyFiles engine bp op false dest files := by
  intro files
  induction files with
  | nil => intro dest _; rfl
  | cons e rest ih =>
    intro dest hall
    obtain ⟨p, c⟩ := e
    have hpe : is_jinja_template (p.getLastD "") = false :=
      hall (p, c) (List.mem_cons_self _ _)
    have hrest : ∀ e ∈ rest, is_jinja_template (e.1.getLastD "") = false :=
      fun e he => hall e (List.mem_cons_of_mem _ he)
    cases hd : destFileRel bp op p.dropLast with
    | none => simp [copyFiles, hd]
    | some relDir =>
      simp only [copyFiles, hd, hpe, Bool.true_and, Bool.false_and, Bool.and_false]
      exact ih _ hrest

/-- Characterization of the copy loop without templating: it never raises,
and each destination holds the content of the last listed file computing
that destination, falling back to the initial tree. -/
theorem copyFiles_false_spec (engine : Engine) (bp op : Path) :
    ∀ (files : List (Path × String)) (dest : FS),
    (∀ e ∈ files, (destFileRel bp op e.1.dropLast).isSome) →
    (copyFiles engine bp op false dest files).err = none
    ∧ ∀ q, dlookup (copyFiles engine bp op false dest files).fs q
        = ((lastCopy bp op files q).elim (dlookup dest q) some) := by
  intro files
  induction files with
  | nil => intro dest _; exact ⟨rfl, fun q => rfl⟩
  | cons e rest ih =>
    intro dest hall
    obtain ⟨p, c⟩ := e
    have hp : (destFileRel bp op p.dropLast).isSome := hall (p, c) (List.mem_cons_self _ _)
    rcases Option.isSome_iff_exists.mp hp with ⟨relDir, hrel⟩
    have hrest : ∀ e ∈ rest, (destFileRel bp op e.1.dropLast).isSome :=
      fun e he => hall e (List.mem_cons_of_mem _ he)
    rcases ih (dinsert dest (relDir ++ [p.getLastD ""]) c) hrest with ⟨herr, hlook⟩
    have hstep : copyFiles engine bp op false dest ((p, c) :: rest)
        = copyFiles engine bp op false (dinsert dest (relDir ++ [p.getLastD ""]) c) rest := by
      simp [copyFiles, hrel]
    have hdof : destOf bp op p = some (relDir ++ [p.getLastD ""]) := by
      unfold destOf
      rw [hrel]
      rfl
    refine ⟨hstep ▸ herr, ?_⟩
    intro q
    rw [hstep, hlook q]
    cases hlast : lastCopy bp op rest q with
    | some x =>
      rw [show lastCopy bp op ((p, c) :: rest) q = some x by simp only [lastCopy, hlast]]
      rfl
    | none =>
      rw [show lastCopy bp op ((p, c) :: rest) q
          = (if destOf bp op p = some q then some c else none) by
        simp only [lastCopy, hlast]]
      by_cases hq : q = relDir ++ [p.getLastD ""]
      · subst hq
        rw [if_pos hdof]
        simp only [Option.elim]
        exact dlookup_dinsert_self dest _ c
      · have hcond : ¬ destOf bp op p = some q := by
          rw [hdof]
          intro hcc
          exact hq (Option.some.inj hcc).symm
        rw [if_neg hcond]
        simp only [Option.elim]
        exact dlookup_dinsert_ne dest _ q c hq

/-- Every root the merge walks resolves: a base-tree root is relative to
`base_dir.parent`, and an overlay-tree root falls back to
`overlay_dir.parent` when `base_dir.parent` is not its ancestor. -/
theorem destFileRel_walked (base_dir overlay_dir : Path) (src : FS) :
    ∀ e ∈ filesUnder src base_dir ++ filesUnder src overlay_dir,
      (destFileRel base_dir.dropLast overlay_dir.dropLast e.1.dropLast).isSome := by
  intro e he
  rcases List.mem_append.mp he with hb | ho
  · have hpre := List.of_mem_filter hb
    have hbp : base_dir.dropLast.isPrefixOf e.1.dropLast = true := by
      rw [List.isPrefixOf_iff_prefix] at hpre ⊢
      exact (List.dropLast_prefix base_dir).trans hpre
    simp [destFileRel, relativeTo, hbp]
  · have hpre := List.of_mem_filter ho
    have hop : overlay_dir.dropLast.isPrefixOf e.1.dropLast = true := by
      rw [List.isPrefixOf_iff_prefix] at hpre ⊢
      exact (List.dropLast_prefix overlay_dir).trans hpre
    cases hbp : base_dir.dropLast.isPrefixOf e.1.dropLast with
    | true => simp [destFileRel, relativeTo, hbp]
    | false => simp [destFileRel, relativeTo, hbp, hop]

/-- The last write over a concatenation: the second list (the overlay
walk) takes precedence wherever it writes. -/
theorem lastCopy_append (bp op : Path) (l1 l2 : List (Path × String)) (q : Path) :
    lastCopy bp op (l1 ++ l2) q = ((lastCopy bp op l2 q).elim (lastCopy bp op l1 q) some) := by
  induction l1 with
  | nil =>
    cases h2 : lastCopy bp op l2 q with
    | some x => simp only [List.nil_append, h2, Option.elim]
    | none => simp only [List.nil_append, h2, Option.elim, lastCopy]
  | cons e l1 ih =>
    obtain ⟨p, c⟩ := e
    simp only [List.cons_append, lastCopy, List.append_eq, ih]
    cases h2 : lastCopy bp op l2 q with
    | some x => simp only [h2, Option.elim]
    | none => simp only [h2, Option.elim]

/- ---------------------------------------------------------------------
Claim theorems.
--------------------------------------------------------------------- -/

/-- Claim C1 (counterexample): a base tree and an overlay tree both hold
`config.yaml` at the same tree-relative path ("X" in base, "Y" in overlay),
yet after the merge the destination has NO file at that relative path — the
two copies land at `base/config.yaml` and `overlays/g/config.yaml`, because
each walked root is copied under its path relative to `base_dir.parent`
(falling back to `overlay_dir.parent`), not under its tree-relative path.
The claimed overlay-wins overwrite at the shared relative path is false. -/
theorem merge_same_relpath_cex :
    dlookup mergeCex.fs ["config.yaml"] = none
    ∧ dlookup mergeCex.fs ["base", "config.yaml"] = some "X"
    ∧ dlookup mergeCex.fs ["overlays", "g", "config.yaml"] = some "Y"
    ∧ mergeCex.err = none := by decide

/-- Claim C1 (amended): universally, the merge copies every walked file to
the destination computed as its parent's path relative to `base_dir.parent`
(falling back to `overlay_dir.parent`) plus its name, walking the base tree
entirely before the overlay tree, and the merged workspace maps each
destination path to the content of the LAST walked file computing that
destination (first conjunct pair). Hence any destination the overlay walk
writes ends with overlay content — when base and overlay copies collide on
one destination the overlay wins, because overlay is walked after base
(third conjunct) — while a destination written by the base walk and not
written by the overlay walk keeps the base content (fourth conjunct). The
second top-level part shows the two layouts concretely for arbitrary
contents: in the sibling layout a file present in both trees at the same
relative path yields two surviving copies at prefix-distinguished
destinations and nothing at the bare relative path, and with equal directory
names (overlay outside base's parent) the destinations coincide and the
overlay copy wins. -/
theorem merge_prefixed_destinations :
    (∀ (engine : Engine) (base_dir overlay_dir : Path) (src dest : FS) (template : Bool),
      (∀ e ∈ filesUnder src base_dir ++ filesUnder src overlay_dir,
          is_jinja_template (e.1.getLastD "") = false) →
      ((copy_and_template engine base_dir overlay_dir src dest template).err = none
        ∧ (∀ q, dlookup (copy_and_template engine base_dir overlay_dir src dest template).fs q
            = ((lastCopy base_dir.dropLast overlay_dir.dropLast
                (filesUnder src base_dir ++ filesUnder src overlay_dir) q).elim
                (dlookup dest q) some))
        ∧ (∀ q co,
            lastCopy base_dir.dropLast overlay_dir.dropLast (filesUnder src overlay_dir) q
              = some co →
            dlookup (copy_and_template engine base_dir overlay_dir src dest template).fs q
              = some co)
        ∧ (∀ qb cb,
            lastCopy base_dir.dropLast overlay_dir.dropLast (filesUnder src base_dir) qb
              = some cb →
            lastCopy base_dir.dropLast overlay_dir.dropLast (filesUnder src overlay_dir) qb
              = none →
            dlookup (copy_and_template engine base_dir overlay_dir src dest template).fs qb
              = some cb)))
    ∧ (∀ x y : String,
      (dlookup (copy_and_template engineFail ["base"] ["overlays", "g"]
          [(["base", "config.yaml"], x), (["overlays", "g", "config.yaml"], y)] [] true).fs
          ["base", "config.yaml"] = some x
        ∧ dlookup (copy_and_template engineFail ["base"] ["overlays", "g"]
            [(["base", "config.yaml"], x), (["overlays", "g", "config.yaml"], y)] [] true).fs
            ["overlays", "g", "config.yaml"] = some y
        ∧ dlookup (copy_and_template engineFail ["base"] ["overlays", "g"]
            [(["base", "config.yaml"], x), (["overlays", "g", "config.yaml"], y)] [] true).fs
            ["config.yaml"] = none)
      ∧ dlookup (copy_and_template engineFail ["d1", "t"] ["d2", "t"]
          [(["d1", "t", "config.yaml"], x), (["d2", "t", "config.yaml"], y)] [] true).fs
          ["t", "config.yaml"] = some y) := by
  constructor
  · intro engine base_dir overlay_dir src dest template hnj
    have hres := destFileRel_walked base_dir overlay_dir src
    have heq : copy_and_template engine base_dir overlay_dir src dest template
        = copyFiles engine base_dir.dropLast overlay_dir.dropLast false dest
            (filesUnder src base_dir ++ filesUnder src overlay_dir) := by
      cases template with
      | false => rfl
      | true => exact copyFiles_no_jinja engine _ _ _ dest hnj
    rcases copyFiles_false_spec engine base_dir.dropLast overlay_dir.dropLast
        (filesUnder src base_dir ++ filesUnder src overlay_dir) dest hres with ⟨herr, hlook⟩
    refine ⟨?_, ?_, ?_, ?_⟩
    · rw [heq]
      exact herr
    · intro q
      rw [heq]
      exact hlook q
    · intro q co hco
      rw [heq, hlook q, lastCopy_append, hco]
      rfl
    · intro qb cb hcb hnone
      rw [heq, hlook qb, lastCopy_append, hnone, hcb]
      rfl
  · intro x y
    exact ⟨⟨rfl, rfl, rfl⟩, rfl⟩

/-- Claim C1 (witness): the universal part applied to the sibling-layout
fixture — the overlay copy sits at its overlay-prefixed destination and the
base copy at its base-prefixed destination, with every hypothesis discharged
by evaluation. -/
theorem merge_prefixed_destinations_witness :
    dlookup (copy_and_template engineFail ["base"] ["overlays", "g"] mergeCexSrc [] true).fs
        ["overlays", "g", "config.yaml"] = some "Y"
    ∧ dlookup (copy_and_template engineFail ["base"] ["overlays", "g"] mergeCexSrc [] true).fs
        ["base", "config.yaml"] = some "X" :=
  ⟨(merge_prefixed_destinations.1 engineFail ["base"] ["overlays", "g"] mergeCexSrc [] true
      (by decide)).2.2.1 ["overlays", "g", "config.yaml"] "Y" (by decide),
   (merge_prefixed_destinations.1 engineFail ["base"] ["overlays", "g"] mergeCexSrc [] true
      (by decide)).2.2.2 ["base", "config.yaml"] "X" (by decide) (by decide)⟩

/-- Claim C2 (counterexample): in a two-cluster batch where processing the
first cluster fails inside template rendering (a `RuntimeWarning`, per
`template_file`), the runner does NOT stop: it continues, fully processes
the second cluster, and exits normally — refuting the claim that template
load/render failures abort the remaining batch with a non-zero status. -/
theorem batch_template_error_continues_cex :
    (mainMulti penvC2 [] none [("c1", cfgG1), ("c2", cfgG2)]).status = ExitStatus.normal
    ∧ (mainMulti penvC2 [] none [("c1", cfgG1), ("c2", cfgG2)]).processed = ["c2"] := by
  decide

/-- Claim C3 (code evaluated at the failing input): `setup_jinja` turns
HTML-style auto-escaping ON (`autoescape=True`), so the substituted value
`a&b` reaches the rendered plain-text manifest as `a&amp;b` — the opposite
of the claimed disabled/scoped-away escaping. -/
theorem setup_jinja_autoescape_on :
    (setup_jinja ["tmp"]).autoescape = true
    ∧ renderValue (setup_jinja ["tmp"]) "a&b" = "a&amp;b" := by decide

/-- Claim C7 (code evaluated at the failing input): an empty row is not
skipped by `process_sot_file` — the `if row` guard sits inside the dict
comprehension as a per-item condition and filters nothing, so the identity
lookup on the empty stripped row raises `RuntimeError`, aborting the
remaining rows. -/
theorem empty_row_not_skipped :
    process_sot_file [[("cluster_name", "a")], [], [("cluster_name", "b")]]
      = Except.error PyErr.runtimeError := by decide

/-- Claim C8 (code evaluated at the failing inputs): on the single-cluster
failure path (`except (RuntimeError, RuntimeWarning): sys.exit(1)`, no
cleanup, line 550 skipped) the workspace directory survives the process;
and on the multi-cluster fatal path the `finally` destroys the workspace but
immediately recreates a fresh empty one before `sys.exit(1)`, so a workspace
directory again remains after exit. -/
theorem workspace_not_destroyed_on_failure :
    ((mainSingle penvNoOverlay [("c1", cfgG1)] "c1").status = ExitStatus.exit1
      ∧ (mainSingle penvNoOverlay [("c1", cfgG1)] "c1").tempAlive = true)
    ∧ ((mainMulti penvNoTool [] none [("c1", cfgG1)]).status = ExitStatus.exit1
      ∧ (mainMulti penvNoTool [] none [("c1", cfgG1)]).tempAlive = true) := by decide

/-- Claim C2 (amended): in the multi-cluster loop, a selected cluster whose
processing raises `RuntimeWarning` — the class used both for the
overlay-not-found condition and for template load/render failures — is
logged and skipped, the loop continuing with a fresh workspace; a cluster
whose processing raises `RuntimeError` stops the remaining batch with
`sys.exit(1)`; and a template render failure inside the merge does surface
from `process_cluster` as `RuntimeWarning` (hence recoverable), not as a
batch-fatal error. -/
theorem batch_error_policy :
    (∀ (penv : ProcEnv) (ct : List String) (cg : Option String) (st : FS) (acc : List String)
        (c : String) (cfg : Dict) (rest : List (String × Dict)),
      (check_config cfg).err = none →
      selectStep ct cg cfg = SelOutcome.selected →
      (process_cluster penv cfg st).raised = some PyExc.runtimeWarning →
      batchLoop penv ct cg st acc ((c, cfg) :: rest) = batchLoop penv ct cg [] acc rest)
    ∧ (∀ (penv : ProcEnv) (ct : List String) (cg : Option String) (st : FS) (acc : List String)
        (c : String) (cfg : Dict) (rest : List (String × Dict)),
      (check_config cfg).err = none →
      selectStep ct cg cfg = SelOutcome.selected →
      (process_cluster penv cfg st).raised = some PyExc.runtimeError →
      batchLoop penv ct cg st acc ((c, cfg) :: rest)
        = ⟨ExitStatus.exit1, true, [], acc.reverse⟩)
    ∧ (∀ (penv : ProcEnv) (cfg : Dict) (st : FS) (g : String) (e : TplErr),
      dlookup cfg "cluster_group" = some g →
      pathExists penv.src (penv.overlayRoot ++ [g]) = true →
      (copy_and_template (penv.engine cfg) penv.baseDir (penv.overlayRoot ++ [g])
          penv.src st true).err = some (MergeErr.tplWarn e) →
      (process_cluster penv cfg st).raised = some PyExc.runtimeWarning) := by
  refine ⟨?_, ?_, ?_⟩
  · intro penv ct cg st acc c cfg rest h1 h2 h3
    simp [batchLoop, h1, h2, h3]
  · intro penv ct cg st acc c cfg rest h1 h2 h3
    simp [batchLoop, h1, h2, h3]
  · intro penv cfg st g e h1 h2 h3
    simp [process_cluster, h1, h2, h3]

/-- Claim C2 (witness): the three parts of `batch_error_policy` at concrete
inputs — a render-failing cluster is skipped and the loop continues, a
missing build tool stops the batch with exit 1, and the render failure
reaches `process_cluster` as `RuntimeWarning`. -/
theorem batch_error_policy_witness :
    batchLoop penvC2 [] none [] [] [("c1", cfgG1)] = batchLoop penvC2 [] none [] [] []
    ∧ batchLoop penvNoTool [] none [] [] [("c1", cfgG1)]
      = ⟨ExitStatus.exit1, true, [], []⟩
    ∧ (process_cluster penvC2 cfgG1 []).raised = some PyExc.runtimeWarning :=
  ⟨batch_error_policy.1 penvC2 [] none [] [] "c1" cfgG1 [] (by decide) (by decide) (by decide),
   batch_error_policy.2.1 penvNoTool [] none [] [] "c1" cfgG1 [] (by decide) (by decide)
     (by decide),
   batch_error_policy.2.2 penvC2 cfgG1 [] "g1" TplErr.renderError (by decide) (by decide)
     (by decide)⟩

/-- Claim C4: for any row sequence in which every stripped row carries the
`cluster_name` identity column, `process_sot_file` succeeds with a mapping
whose keys are duplicate-free (exactly one record per distinct identity),
and the record returned for each identity is exactly the stripped form of
the LAST row with that identity — later rows replace earlier ones in their
entirety. -/
theorem process_sot_file_last_row_wins (rows : List Dict)
    (h : ∀ r ∈ rows, (identOf r).isSome) :
    ∃ d, process_sot_file rows = Except.ok d
      ∧ (keys d).Nodup
      ∧ ∀ n, dlookup d n = lastMatch rows n := by
  rcases sotLoop_spec rows [] h with ⟨d, hok, hlook, hnodup⟩
  refine ⟨d, hok, hnodup (by simp [keys]), ?_⟩
  intro n
  rw [hlook n]
  cases hlast : lastMatch rows n with
  | some r => rfl
  | none => rfl

/-- Claim C4 (witness): two rows with the same identity `a`; the theorem
applies and yields the parsed mapping with the second row's values. -/
theorem process_sot_file_last_row_wins_witness :
    ∃ d, process_sot_file rowsC4 = Except.ok d
      ∧ (keys d).Nodup
      ∧ ∀ n, dlookup d n = lastMatch rowsC4 n :=
  process_sot_file_last_row_wins rowsC4 (by decide)

/-- Claim C5: under tag-based selection (non-empty caller tag set, no group
filter), a record is selected iff its tags field exists and the tags parsed
from it (split on commas, each trimmed) intersect the caller-supplied set
under exact string equality; a record without a tags field is never
selected — it takes the warn-and-continue outcome, not an error. -/
theorem tag_selection_semantics (ct : List String) (cfg : Dict) (h : ct ≠ []) :
    (selectStep ct none cfg = SelOutcome.selected ↔
      ∃ s, dlookup cfg "cluster_tags" = some s
        ∧ ((pySplit s ',').map pyStrip).any (fun t => ct.contains t) = true)
    ∧ (dlookup cfg "cluster_tags" = none →
      selectStep ct none cfg = SelOutcome.skippedNoTags) := by
  cases hl : dlookup cfg "cluster_tags" with
  | none =>
    have hskip : selectStep ct none cfg = SelOutcome.skippedNoTags := by
      unfold selectStep
      rw [if_neg h, hl]
    refine ⟨?_, fun _ => hskip⟩
    rw [hskip]
    constructor
    · intro hc
      exact absurd hc (by decide)
    · rintro ⟨s, hs, _⟩
      exact Option.noConfusion hs
  | some s =>
    have hstep : selectStep ct none cfg
        = (if ((pySplit s ',').map pyStrip).any (fun t => ct.contains t) = true
           then selectGroup none cfg else SelOutcome.skippedNoMatch) := by
      unfold selectStep
      rw [if_neg h, hl]
    by_cases hany : ((pySplit s ',').map pyStrip).any (fun t => ct.contains t) = true
    · have hsel : selectStep ct none cfg = SelOutcome.selected := by
        rw [hstep, if_pos hany]
        rfl
      refine ⟨?_, fun hn => Option.noConfusion hn⟩
      rw [hsel]
      exact ⟨fun _ => ⟨s, rfl, hany⟩, fun _ => rfl⟩
    · have hskip : selectStep ct none cfg = SelOutcome.skippedNoMatch := by
        rw [hstep, if_neg hany]
      refine ⟨?_, fun hn => Option.noConfusion hn⟩
      rw [hskip]
      constructor
      · intro hc
        exact absurd hc (by decide)
      · rintro ⟨s2, hs2, hany2⟩
        have h12 : s = s2 := Option.some.inj hs2
        subst h12
        exact absurd hany2 hany

/-- Claim C5 (witness): caller tags `b, c` — a record with tags `a, b` is
selected through the theorem's iff, and a record without a tags field takes
the skipped-with-warning outcome. -/
theorem tag_selection_semantics_witness :
    selectStep ["b", "c"] none cfgTags = SelOutcome.selected
    ∧ selectStep ["b", "c"] none cfgNoTags = SelOutcome.skippedNoTags :=
  ⟨(tag_selection_semantics ["b", "c"] cfgTags (by decide)).1.mpr
      ⟨"a, b", by decide, by decide⟩,
   (tag_selection_semantics ["b", "c"] cfgNoTags (by decide)).2 (by decide)⟩

/-- Claim C6: `check_config` raises exactly when the `cluster_group` field
is absent (including the falsy-config case) or blank after stripping; for a
record with a non-blank group it never raises, whatever the tags field —
a missing `cluster_tags` only sets the logged-message flag. -/
theorem check_config_group_required (cfg : Dict) :
    ((check_config cfg).err.isSome = true ↔
      (dlookup cfg "cluster_group" = none
        ∨ ∃ g, dlookup cfg "cluster_group" = some g ∧ pyStrip g = ""))
    ∧ ((check_config cfg).err = none →
      (check_config cfg).loggedMissingTags = (dlookup cfg "cluster_tags").isNone) := by
  by_cases hc : cfg = []
  · subst hc
    refine ⟨⟨fun _ => Or.inl rfl, fun _ => rfl⟩, fun hh => Option.noConfusion hh⟩
  · cases hg : dlookup cfg "cluster_group" with
    | none =>
      have hv : check_config cfg = ⟨some CheckErr.missingGroup, false⟩ := by
        unfold check_config
        rw [if_neg hc, hg]
      rw [hv]
      exact ⟨⟨fun _ => Or.inl rfl, fun _ => rfl⟩, fun hh => Option.noConfusion hh⟩
    | some g =>
      have h0 : check_config cfg
          = (if pyStrip g = "" then ⟨some CheckErr.emptyGroup, false⟩
             else ⟨none, (dlookup cfg "cluster_tags").isNone⟩) := by
        unfold check_config
        rw [if_neg hc, hg]
      by_cases hb : pyStrip g = ""
      · have hv : check_config cfg = ⟨some CheckErr.emptyGroup, false⟩ := by
          rw [h0, if_pos hb]
        rw [hv]
        exact ⟨⟨fun _ => Or.inr ⟨g, rfl, hb⟩, fun _ => rfl⟩, fun hh => Option.noConfusion hh⟩
      · have hv : check_config cfg = ⟨none, (dlookup cfg "cluster_tags").isNone⟩ := by
          rw [h0, if_neg hb]
        rw [hv]
        refine ⟨⟨fun hs => Bool.noConfusion hs, ?_⟩, fun _ => rfl⟩
        rintro (hno | ⟨g2, hg2, hb2⟩)
        · exact Option.noConfusion hno
        · have h12 : g = g2 := Option.some.inj hg2
          subst h12
          exact absurd hb2 hb

/-- Claim C6 (witness): a record with a non-blank group and no tags field
does not raise, and its logged-missing-tags flag matches the absent tags
field, via the theorem. -/
theorem check_config_group_required_witness :
    (check_config cfgNoTags).loggedMissingTags = (dlookup cfgNoTags "cluster_tags").isNone :=
  (check_config_group_required cfgNoTags).2 (by decide)

/-- Claim C9: when the build tool's executable resolves on the search path,
`run_kustomize` raises nothing regardless of the exit code — a positive
(non-zero) exit code is only logged as an error — so `process_cluster`
completes without exception and the batch loop records the cluster and
continues with the remaining clusters instead of aborting. -/
theorem kustomize_nonzero_not_fatal
    (penv : ProcEnv) (ct : List String) (cg : Option String) (st : FS) (acc : List String)
    (c : String) (cfg : Dict) (rest : List (String × Dict)) (g : String)
    (hw : penv.kenv.which.isSome = true)
    (hrc : 0 < penv.kenv.returncode)
    (hg : dlookup cfg "cluster_group" = some g)
    (hov : pathExists penv.src (penv.overlayRoot ++ [g]) = true)
    (hcp : (copy_and_template (penv.engine cfg) penv.baseDir (penv.overlayRoot ++ [g])
        penv.src st true).err = none)
    (hck : (check_config cfg).err = none)
    (hsel : selectStep ct cg cfg = SelOutcome.selected) :
    (run_kustomize penv.kenv).raised = none
    ∧ (run_kustomize penv.kenv).loggedError = true
    ∧ (process_cluster penv cfg st).raised = none
    ∧ batchLoop penv ct cg st acc ((c, cfg) :: rest) = batchLoop penv ct cg [] (c :: acc) rest := by
  rcases Option.isSome_iff_exists.mp hw with ⟨w, hwv⟩
  have hrun : run_kustomize penv.kenv = ⟨none, decide (0 < penv.kenv.returncode)⟩ := by
    unfold run_kustomize
    rw [hwv]
  have hproc : (process_cluster penv cfg st).raised = none := by
    simp [process_cluster, hg, hov, hcp, hrun]
  refine ⟨?_, ?_, hproc, ?_⟩
  · rw [hrun]
  · rw [hrun]
    exact decide_eq_true hrc
  · simp [batchLoop, hck, hsel, hproc]

/-- Claim C9 (witness): a resolvable build tool exiting 2 — no exception,
the error is logged, the cluster completes, and the loop continues. -/
theorem kustomize_nonzero_not_fatal_witness :
    (run_kustomize penvRc2.kenv).raised = none
    ∧ (run_kustomize penvRc2.kenv).loggedError = true
    ∧ (process_cluster penvRc2 cfgG1 []).raised = none
    ∧ batchLoop penvRc2 [] none [] [] [("c1", cfgG1)] = batchLoop penvRc2 [] none [] ["c1"] [] :=
  kustomize_nonzero_not_fatal penvRc2 [] none [] [] "c1" cfgG1 [] "g1"
    (by decide) (by decide) (by decide) (by decide) (by decide) (by decide) (by decide)

/-- Claim C10: rendering is not atomic — when the engine's render step fails
on a `.j2` template, `template_file` raises its `RuntimeWarning` with the
original template still present in the workspace AND the output file at the
marker-stripped path already created, left behind empty (it was opened for
writing before rendering). -/
theorem template_render_failure_nonatomic
    (engine : Engine) (fs : FS) (dir : Path) (name content : String)
    (hj : is_jinja_template name = true)
    (hf : dlookup fs (dir ++ [name]) = some content)
    (he : engine content = Except.error JinjaErr.renderErr) :
    (template_file engine fs (dir ++ [name]) true).err = some TplErr.renderError
    ∧ dlookup (template_file engine fs (dir ++ [name]) true).fs (dir ++ [name]) = some content
    ∧ dlookup (template_file engine fs (dir ++ [name]) true).fs (dir ++ [pyStem name]) = some "" := by
  have hname : (dir ++ [name]).getLastD "" = name := by simp
  have hdrop : (dir ++ [name]).dropLast = dir := by simp
  have hout : template_file engine fs (dir ++ [name]) true
      = ⟨dinsert fs (dir ++ [pyStem name]) "", some TplErr.renderError⟩ := by
    simp only [template_file, hf, he, hname, hdrop]
  have hne : (dir ++ [name]) ≠ (dir ++ [pyStem name]) := by
    intro hcon
    have h2 := congrArg (List.drop dir.length) hcon
    rw [List.drop_left, List.drop_left] at h2
    exact pyStem_ne_of_jinja name hj (List.cons.inj h2).1.symm
  refine ⟨?_, ?_, ?_⟩
  · rw [hout]
  · rw [hout]
    exact (dlookup_dinsert_ne fs (dir ++ [pyStem name]) (dir ++ [name]) "" hne).trans hf
  · rw [hout]
    exact dlookup_dinsert_self fs (dir ++ [pyStem name]) ""

/-- Claim C10 (witness): a one-file workspace whose template `a/t.j2` fails
to render: the warning is raised, `a/t.j2` survives, and an empty `a/t` has
been created. -/
theorem template_render_failure_nonatomic_witness :
    (template_file engineFail [(["a", "t.j2"], "TPL")] (["a"] ++ ["t.j2"]) true).err
      = some TplErr.renderError
    ∧ dlookup (template_file engineFail [(["a", "t.j2"], "TPL")] (["a"] ++ ["t.j2"]) true).fs
        (["a"] ++ ["t.j2"]) = some "TPL"
    ∧ dlookup (template_file engineFail [(["a", "t.j2"], "TPL")] (["a"] ++ ["t.j2"]) true).fs
        (["a"] ++ [pyStem "t.j2"]) = some "" :=
  template_render_failure_nonatomic engineFail [(["a", "t.j2"], "TPL")] ["a"] "t.j2" "TPL"
    (by decide) (by decide) (by decide)


end Hydrate
